import Mathlib

/-!
Verification of the candidate-discovery and growth-scored filtering pipeline.

The development shallowly embeds the two persistence layers of the repository
(`database.py`, the star-history variant, and `src/database.py`, the
metrics-history plus judgment-ledger variant), the admission filter loop of
`github_adapter.py`, the judge agents of `judge.py` and `src/judge.py`, and
the judging loop of `main.py`.  Timestamps are integers counting seconds,
SQLite rows become Lean structures, and the SQL window queries
(`ORDER BY recorded_at DESC LIMIT 1` over a `BETWEEN` filter) become
`List.argmax` / `List.argmin` over a filtered snapshot list.
-/

set_option linter.unusedVariables false
set_option maxRecDepth 100000

/-- Seconds in `timedelta(hours = n)`. -/
def hoursSec (n : Int) : Int := n * 3600

/-- Seconds in one day, the divisor behind `timedelta.days`. -/
def daySec : Int := 86400

/-- A row of the `star_history` table of `database.py`:
`(repo_url, stars, recorded_at)` restricted to one `repo_url`. -/
structure StarSnap where
  stars : Int
  recorded_at : Int
deriving Repr, DecidableEq

/-- A row of the `metrics_history` table of `src/database.py`:
`(url, stars, forks, recorded_at)` restricted to one `url`. -/
structure MetricsSnap where
  stars : Int
  forks : Int
  recorded_at : Int
deriving Repr, DecidableEq

/-- `recorded_at BETWEEN lo AND hi` (SQL `BETWEEN` is inclusive). -/
def inWindow (lo hi t : Int) : Prop := lo ≤ t ∧ t ≤ hi

instance (lo hi t : Int) : Decidable (inWindow lo hi t) := by
  unfold inWindow; infer_instance

/-- `SELECT ... WHERE recorded_at BETWEEN lo AND hi ORDER BY recorded_at DESC
LIMIT 1` over a star-history list: the in-window snapshot with the greatest
timestamp.  Timestamps are unique per subject (table primary key
`(repo_url, recorded_at)`), so the choice is unambiguous. -/
def latestInWindowStar (hist : List StarSnap) (lo hi : Int) : Option StarSnap :=
  (hist.filter (fun s => decide (inWindow lo hi s.recorded_at))).argmax (·.recorded_at)

/-- Same query over a metrics-history list. -/
def latestInWindowMetrics (hist : List MetricsSnap) (lo hi : Int) : Option MetricsSnap :=
  (hist.filter (fun s => decide (inWindow lo hi s.recorded_at))).argmax (·.recorded_at)

/-- `SELECT stars, forks FROM metrics_history WHERE url=? ORDER BY recorded_at
ASC LIMIT 1`: the earliest-ever snapshot. -/
def earliestMetrics (hist : List MetricsSnap) : Option MetricsSnap :=
  hist.argmin (·.recorded_at)

namespace Database

/-- `DatabaseManager.get_growth_stats` of `database.py`: look for the most
recent snapshot inside `[now-30h, now-18h]`; if found return the raw
difference `current_stars - old_stars` flagged `True` (real 24h data),
otherwise return `(0, False)` (fallback mode, the adapter substitutes its own
heuristic).  `now` is the `datetime.now()` of the call, passed explicitly. -/
def get_growth_stats (hist : List StarSnap) (now current_stars : Int) : Int × Bool :=
  match latestInWindowStar hist (now - hoursSec 30) (now - hoursSec 18) with
  | some s => (current_stars - s.stars, true)
  | none => (0, false)

end Database

namespace SrcDatabase

/-- `DatabaseManager.get_deltas` of `src/database.py`: windowed baseline if a
snapshot exists in `[now-30h, now-18h]`, otherwise the earliest-ever snapshot,
otherwise zero; deltas are clamped with `max(0, ...)`; the boolean flags a
true windowed sample. -/
def get_deltas (hist : List MetricsSnap) (now current_stars current_forks : Int) :
    Int × Int × Bool :=
  match latestInWindowMetrics hist (now - hoursSec 30) (now - hoursSec 18) with
  | some s => (max 0 (current_stars - s.stars), max 0 (current_forks - s.forks), true)
  | none =>
    match earliestMetrics hist with
    | some f => (max 0 (current_stars - f.stars), max 0 (current_forks - f.forks), false)
    | none => (0, 0, false)

end SrcDatabase

namespace Schemas

/-- The `DecisionEnum` of `schemas.py`. -/
inductive Decision where
  | PUBLISH : Decision
  | REJECT : Decision
deriving Repr, DecidableEq

/-- `ProjectMetrics` (`schemas.py`; `src/schemas.py` declares the same
fields).  Timestamps are integer seconds. -/
structure ProjectMetrics where
  stars_24h : Int
  stars_total : Int
  forks_24h : Int
  age_days : Int
  last_commit_date : Int
deriving Repr, DecidableEq

/-- `ProductionSignals` of `schemas.py`.  `category_confidence` is a rational
standing for the float confidence. -/
structure ProductionSignals where
  has_docker : Bool
  has_ci : Bool
  production_signals_count : Int
  category_guess : String
  category_confidence : ℚ
deriving Repr, DecidableEq

/-- `NormalizedProject` of `schemas.py`. -/
structure NormalizedProject where
  source : String
  id : String
  title : String
  description : Option String
  url : String
  metrics : ProjectMetrics
  signals : ProductionSignals
  raw_text : String
  created_at : Int
deriving Repr, DecidableEq

/-- `JudgeOutput` of `schemas.py`.  `preview_post` is optional because
`JudgeAgent.evaluate` nulls it on a recomputed REJECT. -/
structure JudgeOutput where
  novelty : Int
  market_leverage : Int
  moat_potential : Int
  execution_signal : Int
  time_to_market : Int
  category_guess : String
  category_confidence : ℚ
  reject_flags : List String
  one_line_reason : String
  final_decision : Decision
  preview_post : Option String
deriving Repr, DecidableEq

end Schemas

namespace SrcSchemas

/-- `ProductionSignals` of `src/schemas.py` (the count field is named
`production_signals` in this variant). -/
structure ProductionSignals where
  has_docker : Bool
  has_ci : Bool
  production_signals : Int
  category_guess : String
  category_confidence : ℚ
deriving Repr, DecidableEq

/-- `NormalizedProject` of `src/schemas.py` (no `id` / `created_at` field;
`url` is a plain string). -/
structure NormalizedProject where
  source : String
  title : String
  description : Option String
  url : String
  metrics : Schemas.ProjectMetrics
  signals : ProductionSignals
  raw_text : String
deriving Repr, DecidableEq

/-- `JudgeOutput` of `src/schemas.py`: five sub-scores, classification, flags
and the mandatory `preview_post`; this variant has no decision field at all.
-/
structure JudgeOutput where
  novelty : Int
  market_leverage : Int
  moat_potential : Int
  execution_signal : Int
  time_to_market : Int
  category_guess : String
  category_confidence : ℚ
  reject_flags : List String
  one_line_reason : String
  preview_post : String
deriving Repr, DecidableEq

end SrcSchemas

/-- `b.isPrefixOf`-style check written out: does the first list start the
second? -/
def startsWithChars : List Char → List Char → Bool
  | [], _ => true
  | _ :: _, [] => false
  | a :: as, b :: bs => a == b && startsWithChars as bs

/-- Substring occurrence over character lists. -/
def hasSubChars (pat : List Char) : List Char → Bool
  | [] => startsWithChars pat []
  | h :: t => startsWithChars pat (h :: t) || hasSubChars pat t

/-- The Python `pat in s` test on strings. -/
def strContains (s pat : String) : Bool := hasSubChars pat.data s.data

/-- Python `s.lower()`: lower-case character by character (structural
rendering of `String.toLower`). -/
def strLower (s : String) : String := String.mk (s.data.map Char.toLower)

/-- Python `s[:n]`: the first `n` characters (structural rendering of
`String.take`). -/
def strTake (s : String) (n : Nat) : String := String.mk (s.data.take n)

namespace GitHubAdapter

/-- `TARGET_KEYWORDS` of `github_adapter.py` (client section 3). -/
def TARGET_KEYWORDS : List String :=
  ["agent", "orchestration", "inference", "rag", "eval",
   "workflow", "automation", "devtools", "infra", "observability"]

/-- `README_KEYWORDS` of `github_adapter.py` (client section 5.2). -/
def README_KEYWORDS : List String :=
  ["use case", "problem", "solution", "why", "example",
   "quickstart", "demo", "workflow"]

/-- `PROD_KEYWORDS` of `github_adapter.py` (client section 6.2). -/
def PROD_KEYWORDS : List String :=
  ["production", "deploy", "self-hosted", "on-prem", "latency", "cost"]

/-- One repository of the discovery feed as `fetch_candidates` consumes it:
the fields read from the search result, plus the lazily fetched readme and
root file listing with fetch failures already degraded to empty values
(`_get_readme` / `_get_file_structure` catch every exception). -/
structure Repo where
  name : String
  description : Option String
  html_url : String
  stargazers_count : Int
  created_at : Int
  pushed_at : Int
  readme : String
  files : List String
deriving Repr, DecidableEq

/-- Local `text_to_scan` of the fetch loop:
`(repo.name + " " + (repo.description or "")).lower()`. -/
def text_to_scan (repo : Repo) : String :=
  strLower (repo.name ++ " " ++ repo.description.getD "")

/-- Local `keywords_found_in_meta`: some target keyword occurs in name or
description. -/
def keywords_found_in_meta (repo : Repo) : Bool :=
  TARGET_KEYWORDS.any (fun k => strContains (text_to_scan repo) k)

/-- Local `age_days = (datetime.now(utc) - created_at).days`
(`timedelta.days` floors). -/
def age_days (repo : Repo) (now : Int) : Int :=
  (now - repo.created_at).fdiv daySec

/-- The history after `save_snapshot(repo.html_url, repo.stargazers_count)`,
which runs before the growth query. -/
def saved_hist (repo : Repo) (hist : List StarSnap) (now : Int) : List StarSnap :=
  hist ++ [⟨repo.stargazers_count, now⟩]

/-- Local `stars_growth` from
`get_growth_stats(repo.html_url, repo.stargazers_count)`. -/
def stars_growth (repo : Repo) (hist : List StarSnap) (now : Int) : Int :=
  (Database.get_growth_stats (saved_hist repo hist now) now repo.stargazers_count).1

/-- Local `is_real_data` flag of the same call. -/
def is_real_data (repo : Repo) (hist : List StarSnap) (now : Int) : Bool :=
  (Database.get_growth_stats (saved_hist repo hist now) now repo.stargazers_count).2

/-- Local `effective_growth = stars_growth if is_real_data else
repo.stargazers_count`. -/
def effective_growth (repo : Repo) (hist : List StarSnap) (now : Int) : Int :=
  if is_real_data repo hist now then stars_growth repo hist now
  else repo.stargazers_count

/-- Local `days_since_push = (datetime.now(utc) - pushed_at).days`. -/
def days_since_push (repo : Repo) (now : Int) : Int :=
  (now - repo.pushed_at).fdiv daySec

/-- `GitHubAdapter._is_readme_meaningful`: at least 800 characters and at
least two readme-quality keywords present. -/
def is_readme_meaningful (content : String) : Bool :=
  if content.length < 800 then false
  else decide (2 ≤ (README_KEYWORDS.filter
    (fun kw => strContains (strLower content) kw)).length)

/-- `GitHubAdapter._extract_production_signals`. -/
def extract_production_signals (files : List String) (readme_content : String) :
    Schemas.ProductionSignals :=
  let text := strLower readme_content
  let has_docker := files.any (fun f => strContains (strLower f) "docker")
  let has_ci := files.any (fun f =>
    strContains f ".github/workflows" || strContains f ".circleci")
  let keyword_count := (PROD_KEYWORDS.filter (fun kw => strContains text kw)).length
  { has_docker := has_docker, has_ci := has_ci,
    production_signals_count :=
      (if has_docker then 1 else 0) + (if has_ci then 1 else 0) + Int.ofNat keyword_count,
    category_guess := "other", category_confidence := 0 }

/-- A single quote character, for the Python `str(list)` rendering. -/
def sq : String := String.singleton (Char.ofNat 39)

/-- Python `str(files)` for a list of strings. -/
def pyStrList (files : List String) : String :=
  "[" ++ String.intercalate ", " (files.map (fun f => sq ++ f ++ sq)) ++ "]"

/-- Outcome of one iteration of the `fetch_candidates` loop body: the first
failing gate, or the accepted candidate. -/
inductive FilterResult where
  | rejectedAge : FilterResult
  | rejectedInactive : FilterResult
  | rejectedReadme : FilterResult
  | rejectedNoKeywords : FilterResult
  | accepted : Schemas.NormalizedProject → FilterResult
deriving Repr, DecidableEq

/-- The `NormalizedProject` built for an accepted repo: `stars_24h` reports
the real growth (`stars_growth`), never the effective-growth proxy. -/
def mkCandidate (repo : Repo) (hist : List StarSnap) (now : Int) :
    Schemas.NormalizedProject :=
  { id := repo.html_url, source := "github", title := repo.name,
    url := repo.html_url, description := repo.description,
    created_at := repo.created_at,
    metrics := { stars_24h := stars_growth repo hist now,
                 stars_total := repo.stargazers_count, forks_24h := 0,
                 age_days := age_days repo now,
                 last_commit_date := repo.pushed_at },
    signals := extract_production_signals repo.files repo.readme,
    raw_text := "README:\n" ++ strTake repo.readme 3000 ++
      "\n\nFILE STRUCTURE:\n" ++ pyStrList repo.files }

/-- The body of `GitHubAdapter.fetch_candidates` for one repo (lines 58-155):
age gate, snapshot save plus growth computation, activity gate, readme
quality gate, final target-keyword gate, signal extraction, normalization.
The keyword scan of name and description happens first but only sets the
`keywords_found_in_meta` flag; it rejects nothing by itself. -/
def fetch_candidates_step (repo : Repo) (hist : List StarSnap) (now : Int) :
    FilterResult :=
  if 90 < age_days repo now then .rejectedAge
  else if ¬ (days_since_push repo now ≤ 14 ∨ 30 ≤ effective_growth repo hist now) then
    .rejectedInactive
  else if is_readme_meaningful repo.readme = false then .rejectedReadme
  else if keywords_found_in_meta repo = false ∧
      TARGET_KEYWORDS.any (fun k => strContains (strLower repo.readme) k) = false then
    .rejectedNoKeywords
  else .accepted (mkCandidate repo hist now)

/-- The `stars_24h` metric of the candidate a filter run reports, if any. -/
def reportedStars : FilterResult → Option Int
  | .accepted c => some c.metrics.stars_24h
  | _ => none

end GitHubAdapter

namespace Judge

/-- `JudgeAgent.evaluate` of `judge.py`.  `scorer` abstracts
`self.chain.invoke` plus parsing; `none` is the except-branch (invocation
failure or malformed response), in which case the project is untouched and
`None` is returned.  On success the scorer classification is written into
`project.signals`, and the decision is recomputed locally from
`novelty + market_leverage + moat_potential >= 18`, overriding whatever
`final_decision` the scorer produced; on a recomputed REJECT the
`preview_post` draft is discarded. -/
def evaluate (scorer : Schemas.NormalizedProject → Option Schemas.JudgeOutput)
    (project : Schemas.NormalizedProject) :
    Schemas.NormalizedProject × Option Schemas.JudgeOutput :=
  match scorer project with
  | none => (project, none)
  | some result =>
    let signals' := { project.signals with
      category_guess := result.category_guess,
      category_confidence := result.category_confidence }
    let project' := { project with signals := signals' }
    let core_score := result.novelty + result.market_leverage + result.moat_potential
    if 18 ≤ core_score then
      (project', some { result with final_decision := .PUBLISH })
    else
      (project', some { result with final_decision := .REJECT, preview_post := none })

end Judge

namespace SrcJudge

/-- `JudgeAgent.evaluate` of `src/judge.py`: on scorer success it writes the
classification into `project.signals` and returns the scorer result as is (no
decision field exists in this schema variant); on failure the project is
untouched and `None` is returned. -/
def evaluate (scorer : SrcSchemas.NormalizedProject → Option SrcSchemas.JudgeOutput)
    (project : SrcSchemas.NormalizedProject) :
    SrcSchemas.NormalizedProject × Option SrcSchemas.JudgeOutput :=
  match scorer project with
  | none => (project, none)
  | some result =>
    let signals' := { project.signals with
      category_guess := result.category_guess,
      category_confidence := result.category_confidence }
    ({ project with signals := signals' }, some result)

end SrcJudge

namespace SrcDatabase

/-- A row of the `processed_items` table of `src/database.py`
(`processed_at` omitted; no claim concerns it). -/
structure ProcessedRow where
  title : String
  description : Option String
  stars_total : Int
  velocity : Int
  prod_score : Int
  raw_text : String
  decision : Schemas.Decision
  score : Int
deriving Repr, DecidableEq

/-- The `processed_items` table keyed by url (its primary key), as a point
lookup. -/
def Ledger : Type := String → Option ProcessedRow

/-- `DatabaseManager.is_judged`: a row for the url exists. -/
def is_judged (db : Ledger) (url : String) : Bool := (db url).isSome

/-- `DatabaseManager.mark_processed`: `INSERT OR REPLACE` keyed by
`project.url`. -/
def mark_processed (db : Ledger) (project : SrcSchemas.NormalizedProject)
    (decision : Schemas.Decision) (score : Int) : Ledger :=
  fun u =>
    if u = project.url then
      some { title := project.title, description := project.description,
             stars_total := project.metrics.stars_total,
             velocity := project.metrics.stars_24h,
             prod_score := project.signals.production_signals,
             raw_text := project.raw_text, decision := decision, score := score }
    else db u

end SrcDatabase

namespace Main

/-- One entry of `final_deals` in `run_pipeline`. -/
structure Deal where
  project : SrcSchemas.NormalizedProject
  verdict : SrcSchemas.JudgeOutput
  total_score : Int
deriving Repr, DecidableEq

/-- The `if verdict:` body of the `run_pipeline` loop (`main.py` lines
43-68): compute `score_investment` from the three sub-scores, decide
PUBLISH/REJECT locally, `mark_processed`, and keep the deal (with its
preview payload) only on PUBLISH. -/
def recordVerdict (db : SrcDatabase.Ledger) (project : SrcSchemas.NormalizedProject)
    (verdict : SrcSchemas.JudgeOutput) : SrcDatabase.Ledger × Option Deal :=
  let score_investment :=
    verdict.novelty + verdict.market_leverage + verdict.moat_potential
  let decision :=
    if 18 ≤ score_investment then Schemas.Decision.PUBLISH
    else Schemas.Decision.REJECT
  (SrcDatabase.mark_processed db project decision score_investment,
   if decision = Schemas.Decision.PUBLISH then
     some ⟨project, verdict, score_investment⟩
   else none)

/-- The judging loop of `run_pipeline` (`main.py` lines 35-76): each
candidate is passed to `judge.evaluate` (which mutates the project and calls
the scorer exactly once, also when the call fails); a `None` verdict is
logged and skipped, everything else is recorded.  Returns the final ledger,
the deals, and the list of scorer invocations (one per candidate, in
order). -/
def judgeLoop (scorer : SrcSchemas.NormalizedProject → Option SrcSchemas.JudgeOutput) :
    List SrcSchemas.NormalizedProject → SrcDatabase.Ledger →
    SrcDatabase.Ledger × List Deal × List String
  | [], db => (db, [], [])
  | p :: rest, db =>
    match SrcJudge.evaluate scorer p with
    | (p', some v) =>
      let step := recordVerdict db p' v
      let r := judgeLoop scorer rest step.1
      (r.1, step.2.toList ++ r.2.1, p.url :: r.2.2)
    | (_, none) =>
      let r := judgeLoop scorer rest db
      (r.1, r.2.1, p.url :: r.2.2)

/-- Modelled from the spec: `main.py` imports `src.github_adapter`, a module
absent from the repository tree (only its collaborators `src/database.py`,
`src/judge.py`, `src/schemas.py` are present).  Per spec §4.4 its admission
filter runs the dedup gate first: a subject with `is_judged(url)` true is
rejected before any other gate or external call; the remaining gates are
abstracted as `gates`. -/
def fetch_candidates (db : SrcDatabase.Ledger)
    (gates : GitHubAdapter.Repo → Option SrcSchemas.NormalizedProject)
    (feed : List GitHubAdapter.Repo) : List SrcSchemas.NormalizedProject :=
  feed.filterMap (fun r =>
    if SrcDatabase.is_judged db r.html_url then none else gates r)

/-- One full `run_pipeline` pass: fetch candidates against the current
ledger, then judge them sequentially against that same ledger. -/
def run_pipeline (db : SrcDatabase.Ledger)
    (gates : GitHubAdapter.Repo → Option SrcSchemas.NormalizedProject)
    (scorer : SrcSchemas.NormalizedProject → Option SrcSchemas.JudgeOutput)
    (feed : List GitHubAdapter.Repo) :
    SrcDatabase.Ledger × List Deal × List String :=
  judgeLoop scorer (fetch_candidates db gates feed) db

end Main

/-! Concrete fixtures used by witnesses and counterexamples. -/

/-- An 800-character readme containing the quality keywords `why` and
`demo`. -/
def readmeLong : String := String.mk (List.replicate 792 'a') ++ "why demo"

/-- A 300-character readme. -/
def readme300 : String := String.mk (List.replicate 300 'a')

/-- A repo created 120 days ago (`now = 0`). -/
def repo120 : GitHubAdapter.Repo :=
  ⟨"agenttool", none, "https://x/agenttool", 500, -10368000, 0, readmeLong, []⟩

/-- A repo created 2 days ago with an empty readme. -/
def repoYoung : GitHubAdapter.Repo :=
  ⟨"agenttool", none, "https://x/agenttool", 50, -172800, 0, "", []⟩

/-- A repo created 10 days ago, 40 stars, pushed 2 days ago. -/
def repoC7 : GitHubAdapter.Repo :=
  ⟨"agenttool", none, "https://x/agenttool", 40, -864000, -172800, readmeLong, []⟩

/-- History with one snapshot (10 stars) at `now - 24h`. -/
def histC7 : List StarSnap := [⟨10, -86400⟩]

/-- A repo created 10 days ago with a 300-character readme, pushed now. -/
def repoC8 : GitHubAdapter.Repo :=
  ⟨"agenttool", none, "https://x/agenttool", 50, -864000, 0, readme300, []⟩

/-- A src-variant scorer verdict with sub-scores 7/6/6/9/5. -/
def verdictSrc0 : SrcSchemas.JudgeOutput :=
  ⟨7, 6, 6, 9, 5, "agents", 9/10, [], "strong infra play", "draft post"⟩

/-- A root-variant scorer verdict with sub-scores 7/6/6/9/5 whose own
decision field says REJECT. -/
def verdictRoot0 : Schemas.JudgeOutput :=
  ⟨7, 6, 6, 9, 5, "agents", 9/10, [], "strong infra play",
   Schemas.Decision.REJECT, some "draft post"⟩

/-- A src-variant normalized project. -/
def projSrc0 : SrcSchemas.NormalizedProject :=
  ⟨"github", "agenttool", none, "https://x/agenttool",
   ⟨30, 40, 0, 10, -172800⟩, ⟨false, false, 0, "pending", 0⟩, "raw"⟩

/-- A root-variant normalized project. -/
def projRoot0 : Schemas.NormalizedProject :=
  ⟨"github", "https://x/agenttool", "agenttool", none, "https://x/agenttool",
   ⟨30, 40, 0, 10, -172800⟩, ⟨false, false, 0, "other", 0⟩, "raw", -864000⟩

/-- A project whose scorer invocation will fail. -/
def projFail : SrcSchemas.NormalizedProject := { projSrc0 with url := "https://x/fail" }

/-- A scorer failing exactly on `projFail`. -/
def scorerC9 (p : SrcSchemas.NormalizedProject) : Option SrcSchemas.JudgeOutput :=
  if p.url = "https://x/fail" then none else some verdictSrc0

/-- The empty judgment ledger. -/
def ledger0 : SrcDatabase.Ledger := fun _ => none

/-- An existing judgment row. -/
def rowJudged : SrcDatabase.ProcessedRow :=
  ⟨"old title", none, 10, 1, 0, "old raw", Schemas.Decision.REJECT, 9⟩

/-- A ledger in which `https://x/judged` already has a judgment. -/
def ledgerC1 : SrcDatabase.Ledger :=
  fun u => if u = "https://x/judged" then some rowJudged else none

/-- A feed repo whose url is already judged in `ledgerC1`. -/
def repoJudged : GitHubAdapter.Repo := { repoC7 with html_url := "https://x/judged" }

/-- Downstream gates that accept every repo (worst case for dedup). -/
def gatesC1 (r : GitHubAdapter.Repo) : Option SrcSchemas.NormalizedProject :=
  some { projSrc0 with url := r.html_url }

/-- The `ORDER BY ... DESC LIMIT 1` query, characterized: if some element of
`l` satisfies the filter, the query returns a filtered element whose key is
maximal among filtered elements. -/
theorem argmax_filter_spec {α : Type} (ts : α → Int) (P : α → Bool) (l : List α)
    (s : α) (hs : s ∈ l) (hsP : P s = true) :
    ∃ b, (l.filter P).argmax ts = some b ∧ b ∈ l ∧ P b = true ∧
      ∀ t ∈ l, P t = true → ts t ≤ ts b := by
  have hsf : s ∈ l.filter P := List.mem_filter.mpr ⟨hs, hsP⟩
  cases h : (l.filter P).argmax ts with
  | none =>
    rw [List.argmax_eq_none] at h
    rw [h] at hsf
    exact absurd hsf (List.not_mem_nil s)
  | some b =>
    have hmem : b ∈ (l.filter P).argmax ts := Option.mem_def.mpr h
    obtain ⟨hbl, hbP⟩ := List.mem_filter.mp (List.argmax_mem hmem)
    refine ⟨b, rfl, hbl, hbP, fun t htl htP => ?_⟩
    exact List.le_of_mem_argmax (List.mem_filter.mpr ⟨htl, htP⟩) hmem

/-- The `ORDER BY ... ASC LIMIT 1` query, characterized: on a nonempty list it
returns an element whose key is minimal. -/
theorem argmin_spec {α : Type} (ts : α → Int) (l : List α) (hne : l ≠ []) :
    ∃ f, l.argmin ts = some f ∧ f ∈ l ∧ ∀ t ∈ l, ts f ≤ ts t := by
  cases h : l.argmin ts with
  | none => exact absurd (List.argmin_eq_none.mp h) hne
  | some f =>
    have hmem : f ∈ l.argmin ts := Option.mem_def.mpr h
    exact ⟨f, rfl, List.argmin_mem hmem, fun t htl => List.le_of_mem_argmin htl hmem⟩

/-- If no element passes the filter, the window query returns nothing. -/
theorem argmax_filter_none {α : Type} (ts : α → Int) (P : α → Bool) (l : List α)
    (h : ∀ s ∈ l, ¬ P s = true) : (l.filter P).argmax ts = none := by
  rw [List.argmax_eq_none]
  exact List.filter_eq_nil_iff.mpr h

/-- C2 counterexample: with a single in-window snapshot of 10 stars and a
current count of 5, `get_growth_stats` (`database.py`) returns the negative
delta `-5` in its windowed branch, so the claim that the delta calculator
never returns a negative growth value is false at this input. -/
theorem get_growth_stats_negative_delta_cex :
    Database.get_growth_stats [⟨10, -86400⟩] 0 5 = (-5, true) ∧
    inWindow (0 - hoursSec 30) (0 - hoursSec 18) (-86400) ∧
    ¬ (0 : Int) ≤ (Database.get_growth_stats [⟨10, -86400⟩] 0 5).1 := by
  decide

/-- C2 (amended): `get_deltas` (`src/database.py`) never returns a negative
star or fork delta in any branch, and `get_growth_stats` (`database.py`)
never returns a negative delta in its fallback branch, where it is always 0;
its windowed branch returns the raw difference, which can be negative.  Both
calculators are total functions: absence of history is an ordinary value,
never an error. -/
theorem delta_nonneg (histM : List MetricsSnap) (histS : List StarSnap)
    (now cs cf c : Int) :
    0 ≤ (SrcDatabase.get_deltas histM now cs cf).1 ∧
    0 ≤ (SrcDatabase.get_deltas histM now cs cf).2.1 ∧
    ((Database.get_growth_stats histS now c).2 = true ∨
      (Database.get_growth_stats histS now c).1 = 0) := by
  refine ⟨?_, ?_, ?_⟩
  · unfold SrcDatabase.get_deltas
    cases latestInWindowMetrics histM (now - hoursSec 30) (now - hoursSec 18) with
    | some s => simp
    | none =>
      cases earliestMetrics histM with
      | some f => simp
      | none => simp
  · unfold SrcDatabase.get_deltas
    cases latestInWindowMetrics histM (now - hoursSec 30) (now - hoursSec 18) with
    | some s => simp
    | none =>
      cases earliestMetrics histM with
      | some f => simp
      | none => simp
  · unfold Database.get_growth_stats
    cases latestInWindowStar histS (now - hoursSec 30) (now - hoursSec 18) with
    | some s => left; rfl
    | none => right; rfl

/-- C3 counterexample: a subject whose only snapshot (5 stars) lies outside
the window at `now - 80h`, with a current count of 42: the claim requires the
calculator to fall back to the earliest-ever snapshot and return
`max(0, 42 - 5) = 37`, but `get_growth_stats` (`database.py`) returns 0. -/
theorem get_growth_stats_no_earliest_cex :
    Database.get_growth_stats [⟨5, -288000⟩] 0 42 = (0, false) ∧
    ¬ inWindow (0 - hoursSec 30) (0 - hoursSec 18) (-288000) ∧
    Database.get_growth_stats [⟨5, -288000⟩] 0 42 ≠ (max 0 (42 - 5), false) := by
  decide

/-- C3 (amended): when no snapshot lies in `[now-30h, now-18h]`,
`get_deltas` (`src/database.py`) behaves as the claim states — earliest-ever
baseline with `max(0, current - earliest)` marked fallback when any history
exists, `(0, 0, fallback)` on empty history, hence 0 for a subject with one
just-recorded snapshot — while `get_growth_stats` (`database.py`) returns
`(0, fallback)` in every such case without consulting the earliest snapshot
(the adapter substitutes total stars as its filtering proxy instead). -/
theorem fallback_behavior (histM : List MetricsSnap) (histS : List StarSnap)
    (now cs cf c : Int)
    (hM : ∀ s ∈ histM, ¬ inWindow (now - hoursSec 30) (now - hoursSec 18) s.recorded_at)
    (hS : ∀ s ∈ histS, ¬ inWindow (now - hoursSec 30) (now - hoursSec 18) s.recorded_at) :
    (histM = [] → SrcDatabase.get_deltas histM now cs cf = (0, 0, false)) ∧
    (histM ≠ [] → ∃ f, f ∈ histM ∧ (∀ t ∈ histM, f.recorded_at ≤ t.recorded_at) ∧
      SrcDatabase.get_deltas histM now cs cf =
        (max 0 (cs - f.stars), max 0 (cf - f.forks), false)) ∧
    Database.get_growth_stats histS now c = (0, false) := by
  have hMnone : latestInWindowMetrics histM (now - hoursSec 30) (now - hoursSec 18) = none := by
    apply argmax_filter_none
    intro s hs
    simpa using hM s hs
  have hSnone : latestInWindowStar histS (now - hoursSec 30) (now - hoursSec 18) = none := by
    apply argmax_filter_none
    intro s hs
    simpa using hS s hs
  refine ⟨?_, ?_, ?_⟩
  · intro hnil
    subst hnil
    simp [SrcDatabase.get_deltas, latestInWindowMetrics, earliestMetrics]
  · intro hne
    obtain ⟨f, hf, hfm, hmin⟩ := argmin_spec (·.recorded_at) histM hne
    refine ⟨f, hfm, hmin, ?_⟩
    unfold SrcDatabase.get_deltas
    rw [hMnone]
    unfold earliestMetrics at hf ⊢
    rw [hf]
  · unfold Database.get_growth_stats
    rw [hSnone]

/-- C3 witness: day-one behavior — a subject with exactly one just-recorded
snapshot (and current counters equal to it) yields delta 0 marked fallback in
both calculators. -/
theorem fallback_behavior_witness :
    SrcDatabase.get_deltas [⟨7, 2, 0⟩] 0 7 2 = (0, 0, false) ∧
    Database.get_growth_stats [⟨7, 0⟩] 0 7 = (0, false) := by
  have H := fallback_behavior [⟨7, 2, 0⟩] [⟨7, 0⟩] 0 7 2 7
    (by decide) (by decide)
  obtain ⟨f, hfm, _, heq⟩ := H.2.1 (by decide)
  have hf : f = (⟨7, 2, 0⟩ : MetricsSnap) := by simpa using hfm
  rw [hf] at heq
  refine ⟨?_, H.2.2⟩
  simpa using heq

/-- C4 (confirmed): whenever some snapshot lies inside `[now-30h, now-18h]`,
both delta calculators select the in-window snapshot with the greatest
timestamp as the baseline — even when older snapshots exist outside the
window — and mark the result windowed (`True`), not fallback. -/
theorem window_precedence (now cs cf : Int) :
    (∀ (histM : List MetricsSnap), ∀ s ∈ histM,
      inWindow (now - hoursSec 30) (now - hoursSec 18) s.recorded_at →
      ∃ b, b ∈ histM ∧ inWindow (now - hoursSec 30) (now - hoursSec 18) b.recorded_at ∧
        (∀ t ∈ histM, inWindow (now - hoursSec 30) (now - hoursSec 18) t.recorded_at →
          t.recorded_at ≤ b.recorded_at) ∧
        SrcDatabase.get_deltas histM now cs cf =
          (max 0 (cs - b.stars), max 0 (cf - b.forks), true)) ∧
    (∀ (histS : List StarSnap), ∀ s ∈ histS,
      inWindow (now - hoursSec 30) (now - hoursSec 18) s.recorded_at →
      ∃ b, b ∈ histS ∧ inWindow (now - hoursSec 30) (now - hoursSec 18) b.recorded_at ∧
        (∀ t ∈ histS, inWindow (now - hoursSec 30) (now - hoursSec 18) t.recorded_at →
          t.recorded_at ≤ b.recorded_at) ∧
        Database.get_growth_stats histS now cs = (cs - b.stars, true)) := by
  constructor
  · intro histM s hs hsw
    obtain ⟨b, hb, hbl, hbP, hmax⟩ := argmax_filter_spec (·.recorded_at)
      (fun t => decide (inWindow (now - hoursSec 30) (now - hoursSec 18) t.recorded_at))
      histM s hs (by simpa using hsw)
    refine ⟨b, hbl, by simpa using hbP, fun t htl htw => hmax t htl (by simpa using htw), ?_⟩
    unfold SrcDatabase.get_deltas latestInWindowMetrics
    rw [hb]
  · intro histS s hs hsw
    obtain ⟨b, hb, hbl, hbP, hmax⟩ := argmax_filter_spec (·.recorded_at)
      (fun t => decide (inWindow (now - hoursSec 30) (now - hoursSec 18) t.recorded_at))
      histS s hs (by simpa using hsw)
    refine ⟨b, hbl, by simpa using hbP, fun t htl htw => hmax t htl (by simpa using htw), ?_⟩
    unfold Database.get_growth_stats latestInWindowStar
    rw [hb]

/-- C4 witness: given a snapshot at `now - 24h` (inside the window) and one at
`now - 40h` (outside), both calculators baseline on the `now - 24h` sample and
mark the result windowed. -/
theorem window_precedence_witness :
    SrcDatabase.get_deltas [⟨10, 1, -86400⟩, ⟨3, 0, -144000⟩] 0 40 5 = (30, 4, true) ∧
    Database.get_growth_stats [⟨10, -86400⟩, ⟨3, -144000⟩] 0 40 = (30, true) := by
  have H := window_precedence 0 40 5
  constructor
  · obtain ⟨b, hbl, hbw, _, heq⟩ := H.1 [⟨10, 1, -86400⟩, ⟨3, 0, -144000⟩]
      ⟨10, 1, -86400⟩ (by decide) (by decide)
    have hb : b = (⟨10, 1, -86400⟩ : MetricsSnap) := by
      rcases (by simpa using hbl : b = (⟨10, 1, -86400⟩ : MetricsSnap) ∨
          b = (⟨3, 0, -144000⟩ : MetricsSnap)) with h | h
      · exact h
      · rw [h] at hbw
        exact absurd hbw (by decide)
    rw [hb] at heq
    simpa using heq
  · obtain ⟨b, hbl, hbw, _, heq⟩ := H.2 [⟨10, -86400⟩, ⟨3, -144000⟩]
      ⟨10, -86400⟩ (by decide) (by decide)
    have hb : b = (⟨10, -86400⟩ : StarSnap) := by
      rcases (by simpa using hbl : b = (⟨10, -86400⟩ : StarSnap) ∨
          b = (⟨3, -144000⟩ : StarSnap)) with h | h
      · exact h
      · rw [h] at hbw
        exact absurd hbw (by decide)
    rw [hb] at heq
    simpa using heq

/-- On the very first observation of a subject the only snapshot is the one
just saved, at `now`, which cannot lie in `[now-30h, now-18h]`; the growth
query reports `(0, fallback)`. -/
theorem get_growth_stats_day_one (s c now : Int) :
    Database.get_growth_stats [⟨s, now⟩] now c = (0, false) := by
  unfold Database.get_growth_stats latestInWindowStar
  have h : decide (inWindow (now - hoursSec 30) (now - hoursSec 18) now) = false := by
    rw [decide_eq_false_iff_not]
    unfold inWindow hoursSec
    omega
  simp [h]

/-- `_is_readme_meaningful` characterized: true exactly for a readme of at
least 800 characters containing at least two quality keywords. -/
theorem is_readme_meaningful_iff (content : String) :
    GitHubAdapter.is_readme_meaningful content = true ↔
      800 ≤ content.length ∧
      2 ≤ (GitHubAdapter.README_KEYWORDS.filter
        (fun kw => strContains (strLower content) kw)).length := by
  unfold GitHubAdapter.is_readme_meaningful
  split_ifs with h
  · simp only [Bool.false_eq_true, false_iff]
    rintro ⟨hc, -⟩
    omega
  · simp only [decide_eq_true_eq]
    constructor
    · intro hc
      exact ⟨by omega, hc⟩
    · intro hc
      exact hc.2

/-- C6 counterexample: a subject created 2 days ago is not rejected at the
age gate, although the claimed rule `age_days = max(1, now - created_at)` and
`reject if age_days < 7` would reject it. -/
theorem age_gate_min_age_cex :
    GitHubAdapter.fetch_candidates_step repoYoung [] 0 ≠ .rejectedAge ∧
    GitHubAdapter.age_days repoYoung 0 = 2 ∧
    max 1 (GitHubAdapter.age_days repoYoung 0) < 7 := by
  decide

/-- C6 (amended): the age gate computes `age_days` as the floored number of
days since creation (no `max(1, ...)` clamp) and rejects exactly when
`age_days > 90`; there is no minimum-age rejection.  In particular a subject
created 120 days ago is rejected at the age gate regardless of its other
metrics. -/
theorem age_gate_upper_bound_only :
    (∀ (repo : GitHubAdapter.Repo) (hist : List StarSnap) (now : Int),
      GitHubAdapter.fetch_candidates_step repo hist now =
        GitHubAdapter.FilterResult.rejectedAge ↔
        90 < GitHubAdapter.age_days repo now) ∧
    GitHubAdapter.fetch_candidates_step repo120 [] 0 =
      GitHubAdapter.FilterResult.rejectedAge ∧
    GitHubAdapter.age_days repo120 0 = 120 := by
  refine ⟨?_, by decide, by decide⟩
  intro repo hist now
  unfold GitHubAdapter.fetch_candidates_step
  split_ifs with h1 h2 h3 h4 <;> simp_all

/-- C7 (confirmed): after the age gate, the activity/velocity gate rejects
exactly when neither `days_since_push <= 14` nor
`effective_growth >= 30` holds, where `effective_growth` is the windowed
star delta when a true windowed sample exists and the total star count
otherwise; the total-star proxy is used only for filtering — an accepted
candidate always reports the real delta `stars_growth` as `stars_24h`,
which is 0 on day one. -/
theorem velocity_gate_windowed (repo : GitHubAdapter.Repo) (hist : List StarSnap)
    (now : Int) :
    (¬ 90 < GitHubAdapter.age_days repo now →
      (GitHubAdapter.fetch_candidates_step repo hist now =
          GitHubAdapter.FilterResult.rejectedInactive ↔
        ¬ (GitHubAdapter.days_since_push repo now ≤ 14 ∨
           30 ≤ GitHubAdapter.effective_growth repo hist now))) ∧
    (GitHubAdapter.is_real_data repo hist now = true →
      GitHubAdapter.effective_growth repo hist now =
        GitHubAdapter.stars_growth repo hist now) ∧
    (GitHubAdapter.is_real_data repo hist now = false →
      GitHubAdapter.effective_growth repo hist now = repo.stargazers_count) ∧
    (∀ v, GitHubAdapter.reportedStars (GitHubAdapter.fetch_candidates_step repo hist now) =
        some v → v = GitHubAdapter.stars_growth repo hist now) ∧
    (hist = [] →
      GitHubAdapter.stars_growth repo hist now = 0 ∧
      GitHubAdapter.is_real_data repo hist now = false) := by
  refine ⟨?_, ?_, ?_, ?_, ?_⟩
  · intro h1
    unfold GitHubAdapter.fetch_candidates_step
    rw [if_neg h1]
    split_ifs with h2 h3 h4 <;> simp_all
  · intro h
    simp [GitHubAdapter.effective_growth, h]
  · intro h
    simp [GitHubAdapter.effective_growth, h]
  · intro v hv
    unfold GitHubAdapter.fetch_candidates_step at hv
    split_ifs at hv <;>
      simp only [GitHubAdapter.reportedStars, GitHubAdapter.mkCandidate,
        Option.some.injEq, reduceCtorEq] at hv
    exact hv.symm
  · intro h
    subst h
    constructor <;>
      simp [GitHubAdapter.stars_growth, GitHubAdapter.is_real_data,
        GitHubAdapter.saved_hist, get_growth_stats_day_one]

/-- C7 witness: a repo with 40 stars and a 10-star snapshot at `now - 24h`
has a true windowed sample; it is accepted and reports the real delta 30 as
`stars_24h`. -/
theorem velocity_gate_windowed_witness :
    GitHubAdapter.reportedStars (GitHubAdapter.fetch_candidates_step repoC7 histC7 0) =
      some 30 ∧
    (30 : Int) = GitHubAdapter.stars_growth repoC7 histC7 0 ∧
    GitHubAdapter.is_real_data repoC7 histC7 0 = true := by
  have h30 : GitHubAdapter.reportedStars
      (GitHubAdapter.fetch_candidates_step repoC7 histC7 0) = some 30 := by decide
  exact ⟨h30, (velocity_gate_windowed repoC7 histC7 0).2.2.2.1 30 h30, by decide⟩

/-- C8 counterexample: a readme of exactly 800 characters with two quality
keywords passes the content-quality gate, although the claim (length must
exceed 800) requires rejection. -/
theorem readme_gate_boundary_cex :
    GitHubAdapter.is_readme_meaningful readmeLong = true ∧
    readmeLong.length = 800 ∧
    ¬ 800 < readmeLong.length := by
  decide

/-- C8 (amended): for every subject that reaches the content-quality gate
(age and activity gates passed), the gate rejects exactly unless the
long-form text is at least 800 characters long and contains at least two
distinct quality keywords; in particular a 300-character readme is always
rejected there. -/
theorem readme_gate (repo : GitHubAdapter.Repo) (hist : List StarSnap) (now : Int)
    (h1 : ¬ 90 < GitHubAdapter.age_days repo now)
    (h2 : GitHubAdapter.days_since_push repo now ≤ 14 ∨
      30 ≤ GitHubAdapter.effective_growth repo hist now) :
    GitHubAdapter.fetch_candidates_step repo hist now =
      GitHubAdapter.FilterResult.rejectedReadme ↔
      ¬ (800 ≤ repo.readme.length ∧
        2 ≤ (GitHubAdapter.README_KEYWORDS.filter
          (fun kw => strContains (strLower repo.readme) kw)).length) := by
  unfold GitHubAdapter.fetch_candidates_step
  rw [if_neg h1, if_neg (not_not_intro h2), ← is_readme_meaningful_iff]
  split_ifs with h3 h4 <;> simp_all

/-- C8 witness: a subject with a 300-character readme that passes the age and
activity gates is rejected at the content-quality gate. -/
theorem readme_gate_witness :
    GitHubAdapter.fetch_candidates_step repoC8 [] 0 =
      GitHubAdapter.FilterResult.rejectedReadme ∧
    repoC8.readme.length = 300 := by
  refine ⟨?_, by decide⟩
  refine (readme_gate repoC8 [] 0 (by decide) (Or.inl (by decide))).mpr ?_
  rintro ⟨hc, -⟩
  have h3 : repoC8.readme.length = 300 := by decide
  omega

/-- `SrcJudge.evaluate` never changes the project url. -/
theorem src_evaluate_url
    (scorer : SrcSchemas.NormalizedProject → Option SrcSchemas.JudgeOutput)
    (p : SrcSchemas.NormalizedProject) :
    (SrcJudge.evaluate scorer p).1.url = p.url := by
  unfold SrcJudge.evaluate
  cases scorer p <;> rfl

/-- `mark_processed` leaves every other url untouched. -/
theorem mark_processed_other (db : SrcDatabase.Ledger)
    (project : SrcSchemas.NormalizedProject) (d : Schemas.Decision) (s : Int)
    (u : String) (h : ¬ u = project.url) :
    SrcDatabase.mark_processed db project d s u = db u := by
  unfold SrcDatabase.mark_processed
  rw [if_neg h]

/-- The judging loop neither reads nor writes the ledger row of a url that
appears in no candidate, and never invokes the scorer for it. -/
theorem judgeLoop_other_urls
    (scorer : SrcSchemas.NormalizedProject → Option SrcSchemas.JudgeOutput)
    (cands : List SrcSchemas.NormalizedProject) (db : SrcDatabase.Ledger)
    (u : String) (h : ∀ p ∈ cands, ¬ p.url = u) :
    (Main.judgeLoop scorer cands db).1 u = db u ∧
    u ∉ (Main.judgeLoop scorer cands db).2.2 := by
  induction cands generalizing db with
  | nil => simp [Main.judgeLoop]
  | cons p rest ih =>
    have hp : ¬ p.url = u := h p (List.mem_cons_self p rest)
    have hrest : ∀ q ∈ rest, ¬ q.url = u := fun q hq => h q (List.mem_cons_of_mem p hq)
    cases hev : scorer p with
    | none =>
      have heval : SrcJudge.evaluate scorer p = (p, none) := by
        unfold SrcJudge.evaluate
        rw [hev]
      simp only [Main.judgeLoop, heval]
      obtain ⟨h1, h2⟩ := ih db hrest
      refine ⟨h1, ?_⟩
      simp only [List.mem_cons]
      rintro (hc | hc)
      · exact hp hc.symm
      · exact h2 hc
    | some v =>
      have heval : SrcJudge.evaluate scorer p =
          ({ p with signals := { p.signals with
              category_guess := v.category_guess,
              category_confidence := v.category_confidence } }, some v) := by
        unfold SrcJudge.evaluate
        rw [hev]
      simp only [Main.judgeLoop, heval]
      obtain ⟨h1, h2⟩ := ih ((Main.recordVerdict db
        { p with signals := { p.signals with
            category_guess := v.category_guess,
            category_confidence := v.category_confidence } } v).1) hrest
      refine ⟨?_, ?_⟩
      · rw [h1]
        exact mark_processed_other _ _ _ _ u (fun hc => hp (by simpa using hc.symm))
      · simp only [List.mem_cons]
        rintro (hc | hc)
        · exact hp hc.symm
        · exact h2 hc
  

/-- C1 (confirmed, with the absent adapter modelled from the spec): for a
subject whose url already has a row in the judgment ledger, a full pipeline
pass rejects every feed entry with that url at the dedup gate — regardless of
the downstream gates — so the scorer is never invoked for it and its ledger
row is unchanged at the end of the pass. -/
theorem dedup_idempotent (db : SrcDatabase.Ledger)
    (gates : GitHubAdapter.Repo → Option SrcSchemas.NormalizedProject)
    (scorer : SrcSchemas.NormalizedProject → Option SrcSchemas.JudgeOutput)
    (feed : List GitHubAdapter.Repo) (u : String)
    (hjudged : SrcDatabase.is_judged db u = true)
    (hgates : ∀ r c, gates r = some c → c.url = r.html_url) :
    (Main.run_pipeline db gates scorer feed).1 u = db u ∧
    u ∉ (Main.run_pipeline db gates scorer feed).2.2 ∧
    ∀ c ∈ Main.fetch_candidates db gates feed, ¬ c.url = u := by
  have hcand : ∀ c ∈ Main.fetch_candidates db gates feed, ¬ c.url = u := by
    intro c hc
    unfold Main.fetch_candidates at hc
    obtain ⟨r, hr, hcr⟩ := List.mem_filterMap.mp hc
    by_cases hj : SrcDatabase.is_judged db r.html_url = true
    · rw [if_pos hj] at hcr
      exact absurd hcr (by simp)
    · rw [if_neg hj] at hcr
      intro hcu
      apply hj
      rw [← hgates r c hcr, hcu]
      exact hjudged
  obtain ⟨h1, h2⟩ := judgeLoop_other_urls scorer (Main.fetch_candidates db gates feed) db u hcand
  exact ⟨h1, h2, hcand⟩

/-- C1 witness: with a ledger already holding a judgment for
`https://x/judged`, a pass over a feed containing that subject (and another
one) leaves its row unchanged and never sends it to the scorer, even with
downstream gates that accept everything. -/
theorem dedup_idempotent_witness :
    (Main.run_pipeline ledgerC1 gatesC1 (fun _ => some verdictSrc0)
        [repoJudged, repoC7]).1 "https://x/judged" = some rowJudged ∧
    "https://x/judged" ∉ (Main.run_pipeline ledgerC1 gatesC1 (fun _ => some verdictSrc0)
        [repoJudged, repoC7]).2.2 := by
  have H := dedup_idempotent ledgerC1 gatesC1 (fun _ => some verdictSrc0)
    [repoJudged, repoC7] "https://x/judged" (by decide)
    (fun r c hc => by
      simp only [gatesC1, Option.some.injEq] at hc
      rw [← hc])
  exact ⟨H.1.trans (by decide), H.2.1⟩

/-- C9 (confirmed): if the scorer fails (or returns a malformed response,
parsed to `None`) for every occurrence of a subject in the candidate list,
the pass records no judgment row for that subject, the final ledger and the
deal list are exactly those of the pass without the subject (the pipeline
continues with the next candidates instead of aborting), and the scorer is
invoked exactly once per occurrence of the subject in the feed — no automatic
retry. -/
theorem scorer_failure_skips
    (scorer : SrcSchemas.NormalizedProject → Option SrcSchemas.JudgeOutput)
    (cands : List SrcSchemas.NormalizedProject) (db : SrcDatabase.Ledger)
    (u : String) (hfail : ∀ p ∈ cands, p.url = u → scorer p = none) :
    (Main.judgeLoop scorer cands db).1 u = db u ∧
    (Main.judgeLoop scorer cands db).2.2.count u =
      cands.countP (fun p => p.url == u) ∧
    (Main.judgeLoop scorer cands db).1 =
      (Main.judgeLoop scorer (cands.filter (fun p => !(p.url == u))) db).1 ∧
    (Main.judgeLoop scorer cands db).2.1 =
      (Main.judgeLoop scorer (cands.filter (fun p => !(p.url == u))) db).2.1 := by
  induction cands generalizing db with
  | nil => simp [Main.judgeLoop]
  | cons p rest ih =>
    have hrest : ∀ q ∈ rest, q.url = u → scorer q = none :=
      fun q hq => hfail q (List.mem_cons_of_mem p hq)
    by_cases hpu : p.url = u
    · have hnone : scorer p = none := hfail p (List.mem_cons_self p rest) hpu
      have heval : SrcJudge.evaluate scorer p = (p, none) := by
        unfold SrcJudge.evaluate
        rw [hnone]
      have hfilter : (p :: rest).filter (fun p => !(p.url == u)) =
          rest.filter (fun p => !(p.url == u)) := by
        rw [List.filter_cons_of_neg]
        simp [hpu]
      obtain ⟨h1, h2, h3, h4⟩ := ih db hrest
      refine ⟨?_, ?_, ?_, ?_⟩
      · simpa only [Main.judgeLoop, heval] using h1
      · simp only [Main.judgeLoop, heval]
        rw [List.count_cons, List.countP_cons]
        have hbeq : (p.url == u) = true := by simp [hpu]
        rw [hbeq]
        simp only [if_true]
        omega
      · rw [hfilter]
        simpa only [Main.judgeLoop, heval] using h3
      · rw [hfilter]
        simpa only [Main.judgeLoop, heval] using h4
    · have hfilter : (p :: rest).filter (fun p => !(p.url == u)) =
          p :: rest.filter (fun p => !(p.url == u)) := by
        rw [List.filter_cons_of_pos]
        simp [hpu]
      cases hev : scorer p with
      | none =>
        have heval : SrcJudge.evaluate scorer p = (p, none) := by
          unfold SrcJudge.evaluate
          rw [hev]
        obtain ⟨h1, h2, h3, h4⟩ := ih db hrest
        refine ⟨?_, ?_, ?_, ?_⟩
        · simpa only [Main.judgeLoop, heval] using h1
        · simp only [Main.judgeLoop, heval]
          rw [List.count_cons, List.countP_cons]
          have hbeq : (p.url == u) = false := by simp [hpu]
          rw [hbeq]
          simp only [Bool.false_eq_true, if_false]
          omega
        · rw [hfilter]
          simp only [Main.judgeLoop, heval]
          exact h3
        · rw [hfilter]
          simp only [Main.judgeLoop, heval]
          exact h4
      | some v =>
        have heval : SrcJudge.evaluate scorer p =
            ({ p with signals := { p.signals with
                category_guess := v.category_guess,
                category_confidence := v.category_confidence } }, some v) := by
          unfold SrcJudge.evaluate
          rw [hev]
        obtain ⟨h1, h2, h3, h4⟩ := ih ((Main.recordVerdict db
          { p with signals := { p.signals with
              category_guess := v.category_guess,
              category_confidence := v.category_confidence } } v).1) hrest
        refine ⟨?_, ?_, ?_, ?_⟩
        · simp only [Main.judgeLoop, heval]
          rw [h1]
          exact mark_processed_other _ _ _ _ u (fun hc => hpu (by simpa using hc.symm))
        · simp only [Main.judgeLoop, heval]
          rw [List.count_cons, List.countP_cons]
          have hbeq : (p.url == u) = false := by simp [hpu]
          rw [hbeq]
          simp only [Bool.false_eq_true, if_false]
          simpa using h2
        · rw [hfilter]
          simp only [Main.judgeLoop, heval]
          exact h3
        · rw [hfilter]
          simp only [Main.judgeLoop, heval]
          exact congrArg₂ (fun (a : List Main.Deal) (b : List Main.Deal) => a ++ b) rfl h4

/-- C9 witness: with a scorer failing on `https://x/fail`, judging a feed of
that subject followed by a healthy one leaves the failing subject without a
ledger row and invokes the scorer exactly once for it. -/
theorem scorer_failure_skips_witness :
    (Main.judgeLoop scorerC9 [projFail, projSrc0] ledger0).1 "https://x/fail" =
      ledger0 "https://x/fail" ∧
    (Main.judgeLoop scorerC9 [projFail, projSrc0] ledger0).2.2.count "https://x/fail" = 1 := by
  have H := scorer_failure_skips scorerC9 [projFail, projSrc0] ledger0 "https://x/fail"
    (by decide)
  refine ⟨H.1, ?_⟩
  rw [H.2.1]
  decide

/-- C5 (confirmed): the decision recorded by the judging loop is computed
locally — PUBLISH exactly when `novelty + market_leverage + moat_potential
>= 18` — with the recomputed score persisted alongside; the deal (the
publish-text payload) is kept exactly when the recomputed decision is
PUBLISH.  Likewise `JudgeAgent.evaluate` (`judge.py`) overrides whatever
`final_decision` the scorer produced by the same rule, keeping the scorer
sub-scores intact, and discards `preview_post` on a recomputed REJECT. -/
theorem decision_override (db : SrcDatabase.Ledger)
    (project : SrcSchemas.NormalizedProject) (verdict : SrcSchemas.JudgeOutput) :
    (∃ row, (Main.recordVerdict db project verdict).1 project.url = some row ∧
      row.score = verdict.novelty + verdict.market_leverage + verdict.moat_potential ∧
      (row.decision = Schemas.Decision.PUBLISH ↔ 18 ≤ row.score) ∧
      ((Main.recordVerdict db project verdict).2 = none ↔
        row.decision = Schemas.Decision.REJECT)) ∧
    (∀ (scorer : Schemas.NormalizedProject → Option Schemas.JudgeOutput)
        (p : Schemas.NormalizedProject) (r : Schemas.JudgeOutput),
      scorer p = some r →
      ∃ r', (Judge.evaluate scorer p).2 = some r' ∧
        (r'.final_decision = Schemas.Decision.PUBLISH ↔
          18 ≤ r.novelty + r.market_leverage + r.moat_potential) ∧
        (r'.final_decision = Schemas.Decision.REJECT → r'.preview_post = none) ∧
        r'.novelty = r.novelty ∧ r'.market_leverage = r.market_leverage ∧
        r'.moat_potential = r.moat_potential) := by
  constructor
  · by_cases h : 18 ≤ verdict.novelty + verdict.market_leverage + verdict.moat_potential
    · refine ⟨⟨project.title, project.description, project.metrics.stars_total,
          project.metrics.stars_24h, project.signals.production_signals,
          project.raw_text, Schemas.Decision.PUBLISH,
          verdict.novelty + verdict.market_leverage + verdict.moat_potential⟩,
        ?_, rfl, ?_, ?_⟩
      · simp [Main.recordVerdict, SrcDatabase.mark_processed, h]
      · simpa using h
      · simp [Main.recordVerdict, h]
    · refine ⟨⟨project.title, project.description, project.metrics.stars_total,
          project.metrics.stars_24h, project.signals.production_signals,
          project.raw_text, Schemas.Decision.REJECT,
          verdict.novelty + verdict.market_leverage + verdict.moat_potential⟩,
        ?_, rfl, ?_, ?_⟩
      · simp [Main.recordVerdict, SrcDatabase.mark_processed, h]
      · simpa using h
      · simp [Main.recordVerdict, h]
  · intro scorer p r hr
    by_cases h : 18 ≤ r.novelty + r.market_leverage + r.moat_potential
    · refine ⟨{ r with final_decision := Schemas.Decision.PUBLISH }, ?_, ?_, ?_, rfl, rfl, rfl⟩
      · simp [Judge.evaluate, hr, h]
      · simpa using h
      · intro hc
        cases hc
    · refine ⟨{ r with final_decision := Schemas.Decision.REJECT, preview_post := none },
        ?_, ?_, ?_, rfl, rfl, rfl⟩
      · simp [Judge.evaluate, hr, h]
      · simpa using h
      · intro _
        rfl

/-- C5 witness: the scorer returns sub-scores 7/6/6/9/5 (sum of the first
three is 19) and, in the root variant, its own decision field says REJECT;
the recorded decision and the overridden verdict are both PUBLISH, with
score 19. -/
theorem decision_override_witness :
    ((Main.recordVerdict ledger0 projSrc0 verdictSrc0).1 projSrc0.url).map
      (fun row => row.decision) = some Schemas.Decision.PUBLISH ∧
    ((Main.recordVerdict ledger0 projSrc0 verdictSrc0).1 projSrc0.url).map
      (fun row => row.score) = some 19 ∧
    ((Judge.evaluate (fun _ => some verdictRoot0) projRoot0).2).map
      (fun r => r.final_decision) = some Schemas.Decision.PUBLISH ∧
    verdictRoot0.final_decision = Schemas.Decision.REJECT := by
  obtain ⟨row, hrow, hscore, hiff, hdeal⟩ :=
    (decision_override ledger0 projSrc0 verdictSrc0).1
  obtain ⟨r', hr', hiff', hpost, hn, hm, hmo⟩ :=
    (decision_override ledger0 projSrc0 verdictSrc0).2
      (fun _ => some verdictRoot0) projRoot0 verdictRoot0 rfl
  have h19 : (18 : Int) ≤ row.score := by
    rw [hscore]
    decide
  refine ⟨?_, ?_, ?_, rfl⟩
  · rw [hrow]
    simp [hiff.mpr h19]
  · rw [hrow]
    have h19score : row.score = 19 := by
      rw [hscore]
      decide
    simp [h19score]
  · rw [hr']
    simp [hiff'.mpr (by decide)]

/-- C10 (confirmed): both `JudgeAgent.evaluate` variants, given a scorer
that returns a valid verdict, update the project in place: only
`signals.category_guess` and `signals.category_confidence` are overwritten
with the scorer classification; identity, title, description, url, metrics,
raw text and every other signal field are unchanged, and the verdict is
passed through. -/
theorem evaluate_mutates_category_only
    (scorerS : SrcSchemas.NormalizedProject → Option SrcSchemas.JudgeOutput)
    (pS : SrcSchemas.NormalizedProject) (rS : SrcSchemas.JudgeOutput)
    (scorerR : Schemas.NormalizedProject → Option Schemas.JudgeOutput)
    (pR : Schemas.NormalizedProject) (rR : Schemas.JudgeOutput)
    (hS : scorerS pS = some rS) (hR : scorerR pR = some rR) :
    ((SrcJudge.evaluate scorerS pS).1.signals.category_guess = rS.category_guess ∧
     (SrcJudge.evaluate scorerS pS).1.signals.category_confidence = rS.category_confidence ∧
     (SrcJudge.evaluate scorerS pS).1.source = pS.source ∧
     (SrcJudge.evaluate scorerS pS).1.title = pS.title ∧
     (SrcJudge.evaluate scorerS pS).1.description = pS.description ∧
     (SrcJudge.evaluate scorerS pS).1.url = pS.url ∧
     (SrcJudge.evaluate scorerS pS).1.metrics = pS.metrics ∧
     (SrcJudge.evaluate scorerS pS).1.raw_text = pS.raw_text ∧
     (SrcJudge.evaluate scorerS pS).1.signals.has_docker = pS.signals.has_docker ∧
     (SrcJudge.evaluate scorerS pS).1.signals.has_ci = pS.signals.has_ci ∧
     (SrcJudge.evaluate scorerS pS).1.signals.production_signals =
       pS.signals.production_signals ∧
     (SrcJudge.evaluate scorerS pS).2 = some rS) ∧
    ((Judge.evaluate scorerR pR).1.signals.category_guess = rR.category_guess ∧
     (Judge.evaluate scorerR pR).1.signals.category_confidence = rR.category_confidence ∧
     (Judge.evaluate scorerR pR).1.source = pR.source ∧
     (Judge.evaluate scorerR pR).1.id = pR.id ∧
     (Judge.evaluate scorerR pR).1.title = pR.title ∧
     (Judge.evaluate scorerR pR).1.description = pR.description ∧
     (Judge.evaluate scorerR pR).1.url = pR.url ∧
     (Judge.evaluate scorerR pR).1.metrics = pR.metrics ∧
     (Judge.evaluate scorerR pR).1.raw_text = pR.raw_text ∧
     (Judge.evaluate scorerR pR).1.created_at = pR.created_at ∧
     (Judge.evaluate scorerR pR).1.signals.has_docker = pR.signals.has_docker ∧
     (Judge.evaluate scorerR pR).1.signals.has_ci = pR.signals.has_ci ∧
     (Judge.evaluate scorerR pR).1.signals.production_signals_count =
       pR.signals.production_signals_count) := by
  constructor
  · unfold SrcJudge.evaluate
    rw [hS]
    exact ⟨rfl, rfl, rfl, rfl, rfl, rfl, rfl, rfl, rfl, rfl, rfl, rfl⟩
  · by_cases h : 18 ≤ rR.novelty + rR.market_leverage + rR.moat_potential <;>
      simp [Judge.evaluate, hR, h]

/-- C10 witness: concrete projects and verdicts for both variants — the
classification fields take the scorer values, the metrics stay unchanged. -/
theorem evaluate_mutates_category_only_witness :
    (SrcJudge.evaluate (fun _ => some verdictSrc0) projSrc0).1.signals.category_guess =
      verdictSrc0.category_guess ∧
    (SrcJudge.evaluate (fun _ => some verdictSrc0) projSrc0).1.metrics = projSrc0.metrics ∧
    (Judge.evaluate (fun _ => some verdictRoot0) projRoot0).1.signals.category_guess =
      verdictRoot0.category_guess ∧
    (Judge.evaluate (fun _ => some verdictRoot0) projRoot0).1.metrics = projRoot0.metrics := by
  have H := evaluate_mutates_category_only (fun _ => some verdictSrc0) projSrc0 verdictSrc0
    (fun _ => some verdictRoot0) projRoot0 verdictRoot0 rfl rfl
  exact ⟨H.1.1, H.1.2.2.2.2.2.2.1, H.2.1, H.2.2.2.2.2.2.2.2.1⟩
